import Mathlib

/-!
Shallow embedding of the request/response reconciliation layer of the
`philipshue` bridge client (`src/bridge.rs`), together with proofs of the
specified properties.

Modelling conventions:
* Rust `String`/`&str` values are modelled as `List Char` (`Str`).
* JSON (de)serialization (serde) and the HTTP transport (hyper) are external
  collaborators; they are modelled as function parameters
  (`decT : Str → Except Str T`, `decL : Str → Except Str (List (RpcOutcome T))`,
  `transport : Request → Except HueError Str`).
* A Rust `unwrap` on a fallible external operation is modelled with `Option`:
  `none` marks the panic branch.
* `format!` string interpolation is list concatenation.
-/

namespace PhilipsHue

/-- Rust strings modelled as lists of characters. -/
abbrev Str := List Char

/-- Modelled from the spec (the `ErrorDetail` carried by bridge-reported
errors lives in `hue.rs`/`errors.rs`, which are not under `src/`): an
error-type code (integer), the resource address the error refers to, and a
human-readable description. -/
structure ErrorDetail where
  code : Nat
  address : Str
  description : Str
deriving Repr, DecidableEq

/-- Modelled from the spec (the unified error type `HueError` lives in
`errors.rs`, which is not under `src/`): `Transport` (network/IO failure),
`Decode` (malformed/unexpected JSON shape), `Encoding` (non-UTF8 or encode
failure), `Bridge(detail)` (bridge-reported semantic error), `Empty`
(a response list that should have contained at least one outcome was empty;
in `bridge.rs` this is the `"Malformed response"` error built by
`ok_or_else`). -/
inductive HueError where
  | transport (msg : Str)
  | decode (msg : Str)
  | encoding (msg : Str)
  | bridge (detail : ErrorDetail)
  | empty
deriving Repr, DecidableEq

/-- Modelled from the spec (the per-item outcome type `HueResponse<T>` lives
in `hue.rs`, which is not under `src/`): a closed tagged union, exactly one
of `Success(T)` or `Failure(ErrorDetail)`. -/
inductive RpcOutcome (T : Type) where
  | success (t : T)
  | failure (d : ErrorDetail)
deriving Repr, DecidableEq

namespace RpcOutcome

/-- Modelled from the spec (`HueResponse::into_result` lives in `hue.rs`,
which is not under `src/`): convert one `RpcOutcome` to a result
(Success → Ok, Failure(detail) → `Bridge(detail)`). -/
def into_result {T : Type} : RpcOutcome T → Except HueError T
  | .success t => .ok t
  | .failure d => .error (.bridge d)

/-- Whether an outcome is the `Success` case. -/
def isSuccess {T : Type} : RpcOutcome T → Bool
  | .success _ => true
  | .failure _ => false

/-- The payload of a `Success` outcome, if any. -/
def getSuccess {T : Type} : RpcOutcome T → Option T
  | .success t => some t
  | .failure _ => none

end RpcOutcome

/-- `extract` from `src/bridge.rs` (lines 133–141): reduce an ordered list of
per-item outcomes to either the list of all success payloads (input order
preserved) or the first bridge error, via `val.into_result()?` in a loop. -/
def extract {T : Type} : List (RpcOutcome T) → Except HueError (List T)
  | [] => .ok []
  | v :: rest =>
    match v.into_result with
    | .error e => .error e
    | .ok t =>
      match extract rest with
      | .error e => .error e
      | .ok ts => .ok (t :: ts)

/-- The response-body reconciliation closure inside `Bridge::send`
(`src/bridge.rs` lines 151–168): first try to decode the body directly as
`T`; on failure, try to decode it as `Vec<HueResponse<T>>`; if that parses,
take the first element (`Empty` error when there is none) and convert it with
`into_result`; if it does not parse, return the first decode error. The serde
decoders are the external parameters `decT` and `decL`. -/
def reconcileBody {T : Type} (decT : Str → Except Str T)
    (decL : Str → Except Str (List (RpcOutcome T))) (body : Str) :
    Except HueError T :=
  match decT body with
  | .ok r => .ok r
  | .error e1 =>
    match decL body with
    | .ok v =>
      match v with
      | [] => .error .empty
      | x :: _ => x.into_result
    | .error _ => .error (.decode e1)

/-- The HTTP method of a request (the subset used by `bridge.rs`). -/
inductive Method where
  | get
  | put
  | post
  | delete
deriving Repr, DecidableEq

/-- A hyper request: method, request target (already parsed from the
formatted URL string) and optional body bytes. -/
structure Request where
  method : Method
  uri : Str
  body : Option Str := none
deriving Repr, DecidableEq

/-- The `Bridge` struct of `src/bridge.rs` (line 112–117), without the
network client (the client is the external transport collaborator). It
stores only the formatted base URL string. -/
structure Bridge where
  url : Str
deriving Repr, DecidableEq

/-- `Bridge::new` (`src/bridge.rs` lines 182–188): stores
`format!("http://{}/api/{}/", ip, username)`.  No validation happens. -/
def Bridge.new (ip username : Str) : Bridge :=
  { url := "http://".data ++ ip ++ "/api/".data ++ username ++ "/".data }

/-- Rust's `str::split(sep)` on a single separator character, including the
empty substrings it produces around adjacent/leading/trailing separators. -/
def splitChar (sep : Char) : List Char → List (List Char)
  | [] => [[]]
  | c :: cs =>
    if c = sep then [] :: splitChar sep cs
    else
      match splitChar sep cs with
      | [] => [[c]]
      | g :: gs => (c :: g) :: gs

/-- `Bridge::get_ip` (`src/bridge.rs` lines 190–192):
`self.url.split('/').nth(2).unwrap()`. The `unwrap` is modelled with
`Option`: `none` is the panic branch. -/
def Bridge.get_ip (b : Bridge) : Option Str :=
  (splitChar '/' b.url)[2]?

/-- `Bridge::get_username` (`src/bridge.rs` lines 194–196):
`self.url.split('/').nth(4).unwrap()`. The `unwrap` is modelled with
`Option`: `none` is the panic branch. -/
def Bridge.get_username (b : Bridge) : Option Str :=
  (splitChar '/' b.url)[4]?

/-- The result of driving one façade future to completion: the requests that
were handed to the transport, and the value or error delivered to the
caller. -/
structure CallTrace (α : Type) where
  requests : List Request
  result : Except HueError α
deriving Repr

/-- `Bridge::send` (`src/bridge.rs` lines 145–171): hand the request to the
transport (hyper client + `body_from_res`, modelled by the `transport`
parameter) and reconcile the body with `reconcileBody`. -/
def Bridge.send {T : Type} (transport : Request → Except HueError Str)
    (decT : Str → Except Str T)
    (decL : Str → Except Str (List (RpcOutcome T))) (req : Request) :
    CallTrace T :=
  { requests := [req],
    result :=
      match transport req with
      | .error e => .error e
      | .ok body => reconcileBody decT decL body }

/-- `Bridge::send_and_extract` (`src/bridge.rs` lines 173–179): `send`
followed by `extract` on the decoded list. -/
def Bridge.send_and_extract {T : Type} (transport : Request → Except HueError Str)
    (decT : Str → Except Str (List (RpcOutcome T)))
    (decL : Str → Except Str (List (RpcOutcome (List (RpcOutcome T)))))
    (req : Request) : CallTrace (List T) :=
  let s := Bridge.send transport decT decL req
  { requests := s.requests,
    result :=
      match s.result with
      | .error e => .error e
      | .ok res => extract res }

/-- The request target formatted by `Bridge::get_light`
(`src/bridge.rs` line 206): `format!("{}lights/{}", self.url, id)`. -/
def Bridge.get_light_uri (b : Bridge) (id : Nat) : Str :=
  b.url ++ "lights/".data ++ (toString id).data

/-- `Bridge::get_light` (`src/bridge.rs` lines 205–209) up to issuing the
request: `hyper::Uri::from_str(&format!(...)).unwrap()` followed by
`Request::new(Get, uri)`. URI parsing belongs to the external hyper
collaborator and is modelled by the `uriOk` acceptance predicate; `none` is
the panic branch of the `unwrap`. -/
def Bridge.get_light_request (uriOk : Str → Bool) (b : Bridge) (id : Nat) :
    Option Request :=
  if uriOk (b.get_light_uri id) then
    some { method := .get, uri := b.get_light_uri id }
  else
    none

/-- `Bridge::set_light_state` (`src/bridge.rs` lines 227–236): build the URI
`format!("{}lights/{}/state", self.url, id)` (unwrap of the external parse,
modelled by `uriOk`), then `to_vec(command)` (the external serde encoder,
modelled by the `encoded` parameter); an encode failure short-circuits via
`futures::done(body).and_then(...)` before the transport is called,
otherwise the body is attached and `send_and_extract` runs. -/
def Bridge.set_light_state {T : Type} (uriOk : Str → Bool)
    (transport : Request → Except HueError Str)
    (decT : Str → Except Str (List (RpcOutcome T)))
    (decL : Str → Except Str (List (RpcOutcome (List (RpcOutcome T)))))
    (b : Bridge) (id : Nat) (encoded : Except Str Str) :
    Option (CallTrace (List T)) :=
  let uri := b.url ++ "lights/".data ++ (toString id).data ++ "/state".data
  if uriOk uri then
    some (match encoded with
      | .error e => { requests := [], result := .error (.encoding e) }
      | .ok body =>
        Bridge.send_and_extract transport decT decL
          { method := .put, uri := uri, body := some body })
  else
    none

/-- `Bridge::modify_configuration` (`src/bridge.rs` lines 334–343): the URI
is `format!("{}config", self.url)`; encoding and short-circuiting are as in
`set_light_state`. -/
def Bridge.modify_configuration {T : Type} (uriOk : Str → Bool)
    (transport : Request → Except HueError Str)
    (decT : Str → Except Str (List (RpcOutcome T)))
    (decL : Str → Except Str (List (RpcOutcome (List (RpcOutcome T)))))
    (b : Bridge) (encoded : Except Str Str) :
    Option (CallTrace (List T)) :=
  let uri := b.url ++ "config".data
  if uriOk uri then
    some (match encoded with
      | .error e => { requests := [], result := .error (.encoding e) }
      | .ok body =>
        Bridge.send_and_extract transport decT decL
          { method := .put, uri := uri, body := some body })
  else
    none

/-! ### Helper lemmas about `splitChar` and the stored URL -/

theorem splitChar_cons_sep (sep : Char) (cs : List Char) :
    splitChar sep (sep :: cs) = [] :: splitChar sep cs := by
  simp [splitChar]

theorem splitChar_append_sep (sep : Char) (ys : List Char) :
    ∀ xs : List Char, sep ∉ xs →
      splitChar sep (xs ++ sep :: ys) = xs :: splitChar sep ys
  | [], _ => by simp [splitChar]
  | c :: xs, h => by
    have hc : ¬(c = sep) := fun hh => h (hh ▸ List.mem_cons_self c xs)
    have hx : sep ∉ xs := fun hh => h (List.mem_cons_of_mem c hh)
    have ih := splitChar_append_sep sep ys xs hx
    simp only [List.cons_append, splitChar, if_neg hc, List.append_eq] at ih ⊢
    rw [ih]

theorem url_split (ip user : Str) (hip : ('/' : Char) ∉ ip)
    (huser : ('/' : Char) ∉ user) :
    splitChar '/' (Bridge.new ip user).url =
      ["http:".data, [], ip, "api".data, user, []] := by
  have h1 : (Bridge.new ip user).url =
      "http:".data ++ '/' ::
        ('/' :: (ip ++ '/' :: ("api".data ++ '/' :: (user ++ '/' :: [])))) := by
    simp [Bridge.new]
  have hhttp : ('/' : Char) ∉ "http:".data := by decide
  have hapi : ('/' : Char) ∉ "api".data := by decide
  rw [h1, splitChar_append_sep _ _ _ hhttp, splitChar_cons_sep,
    splitChar_append_sep _ _ _ hip, splitChar_append_sep _ _ _ hapi,
    splitChar_append_sep _ _ _ huser]
  simp [splitChar]

/-! ### Claim theorems -/

/-- C1: for every response body and target type `T`, `Bridge::send` first
attempts to decode the body directly as `T`; when that direct decode
succeeds it returns `Ok(T)` immediately, regardless of what the
envelope-array decoder would say. -/
theorem send_direct_shape_priority {T : Type}
    (transport : Request → Except HueError Str)
    (decT : Str → Except Str T)
    (decL : Str → Except Str (List (RpcOutcome T)))
    (req : Request) (body : Str) (t : T)
    (ht : transport req = .ok body) (hd : decT body = .ok t) :
    (Bridge.send transport decT decL req).result = .ok t := by
  simp [Bridge.send, reconcileBody, ht, hd]

/-- Witness for C1 at a concrete input: the direct decode succeeds with `7`
while the envelope decoder would also succeed on a different value, and the
direct value wins. -/
theorem send_direct_shape_priority_witness :
    (Bridge.send (fun _ => Except.ok "7".data) (fun _ => Except.ok 7)
      (fun _ => Except.ok [RpcOutcome.success (99 : Nat)])
      { method := .get, uri := "u".data }).result = Except.ok 7 :=
  send_direct_shape_priority _ _ _ _ _ _ rfl rfl

/-- C2: when a response body fails to decode both as the direct type `T`
and as `Vec<HueResponse<T>>`, `Bridge::send` returns the original decode
error from the first (direct-shape) attempt, not the second failure. -/
theorem send_keeps_first_decode_error {T : Type}
    (transport : Request → Except HueError Str)
    (decT : Str → Except Str T)
    (decL : Str → Except Str (List (RpcOutcome T)))
    (req : Request) (body e1 e2 : Str)
    (ht : transport req = .ok body)
    (h1 : decT body = .error e1) (h2 : decL body = .error e2) :
    (Bridge.send transport decT decL req).result = .error (.decode e1) := by
  simp [Bridge.send, reconcileBody, ht, h1, h2]

/-- Witness for C2 at a concrete input: both decoders fail with distinct
errors and the first error is the one surfaced. -/
theorem send_keeps_first_decode_error_witness :
    (Bridge.send (fun _ => Except.ok "not json".data)
      (fun _ => Except.error "e1".data)
      (fun _ => (Except.error "e2".data : Except Str (List (RpcOutcome Nat))))
      { method := .get, uri := "u".data }).result
      = Except.error (HueError.decode "e1".data) :=
  send_keeps_first_decode_error _ _ _ _ _ _ _ rfl rfl rfl

/-- C3: when the direct decode fails but the body parses as a list of
per-item outcomes, `Bridge::send` uses only the first element: an empty list
gives the `Empty` error, a leading success gives `Ok` of its payload, and a
leading bridge error gives `Bridge` of its detail — whatever follows the
first element. -/
theorem send_envelope_first_element {T : Type}
    (transport : Request → Except HueError Str)
    (decT : Str → Except Str T)
    (decL : Str → Except Str (List (RpcOutcome T)))
    (req : Request) (body e1 : Str) (v : List (RpcOutcome T))
    (ht : transport req = .ok body)
    (h1 : decT body = .error e1) (h2 : decL body = .ok v) :
    (v = [] → (Bridge.send transport decT decL req).result = .error .empty) ∧
    (∀ t tl, v = .success t :: tl →
      (Bridge.send transport decT decL req).result = .ok t) ∧
    (∀ d tl, v = .failure d :: tl →
      (Bridge.send transport decT decL req).result = .error (.bridge d)) := by
  refine ⟨?_, ?_, ?_⟩
  · intro hv
    subst hv
    simp [Bridge.send, reconcileBody, ht, h1, h2]
  · intro t tl hv
    subst hv
    simp [Bridge.send, reconcileBody, RpcOutcome.into_result, ht, h1, h2]
  · intro d tl hv
    subst hv
    simp [Bridge.send, reconcileBody, RpcOutcome.into_result, ht, h1, h2]

/-- Witness for C3 at a concrete input: the envelope decoder yields a list
whose first element is a bridge error, and `send` surfaces exactly that
error's fields. -/
theorem send_envelope_first_element_witness :
    (Bridge.send (fun _ => Except.ok "body".data)
      (fun _ => (Except.error "e1".data : Except Str Nat))
      (fun _ => Except.ok
        [RpcOutcome.failure ⟨1, "/lights/9".data, "not available".data⟩,
         RpcOutcome.success (4 : Nat)])
      { method := .put, uri := "u".data }).result
      = Except.error
          (HueError.bridge ⟨1, "/lights/9".data, "not available".data⟩) :=
  (send_envelope_first_element (fun _ => Except.ok "body".data)
      (fun _ => (Except.error "e1".data : Except Str Nat))
      (fun _ => Except.ok
        [RpcOutcome.failure ⟨1, "/lights/9".data, "not available".data⟩,
         RpcOutcome.success (4 : Nat)])
      { method := .put, uri := "u".data } "body".data "e1".data
      [RpcOutcome.failure ⟨1, "/lights/9".data, "not available".data⟩,
       RpcOutcome.success (4 : Nat)] rfl rfl rfl).2.2
    ⟨1, "/lights/9".data, "not available".data⟩ [RpcOutcome.success 4] rfl

/-- C4: for every outcome list whose prefix is all successes and whose next
element is a failure, `extract` stops at that first failure and returns
exactly its bridge error; no partial results, and the outcomes after the
failure are arbitrary and do not affect the result. -/
theorem extract_first_failure {T : Type} (d : ErrorDetail)
    (post : List (RpcOutcome T)) :
    ∀ pre : List (RpcOutcome T), pre.all RpcOutcome.isSuccess = true →
      extract (pre ++ .failure d :: post) = .error (.bridge d)
  | [], _ => by simp [extract, RpcOutcome.into_result]
  | x :: pre, h => by
    have hx : x.isSuccess = true := by
      have := List.all_eq_true.mp h x (List.mem_cons_self x pre)
      exact this
    have hpre : pre.all RpcOutcome.isSuccess = true := by
      refine List.all_eq_true.mpr fun y hy =>
        List.all_eq_true.mp h y (List.mem_cons_of_mem x hy)
    cases x with
    | failure d0 => simp [RpcOutcome.isSuccess] at hx
    | success t =>
      have ih := extract_first_failure d post pre hpre
      simp only [List.cons_append, extract, RpcOutcome.into_result,
        List.append_eq]
      rw [ih]

/-- Witness for C4 at a concrete input: two successes, then a failure, then
further outcomes (including another failure); the result is exactly the
first failure's error. -/
theorem extract_first_failure_witness :
    extract
      [RpcOutcome.success (1 : Nat), RpcOutcome.success 2,
       RpcOutcome.failure ⟨3, "/a".data, "d1".data⟩,
       RpcOutcome.success 9, RpcOutcome.failure ⟨4, "/b".data, "d2".data⟩]
      = Except.error (HueError.bridge ⟨3, "/a".data, "d1".data⟩) :=
  extract_first_failure ⟨3, "/a".data, "d1".data⟩
    [RpcOutcome.success 9, RpcOutcome.failure ⟨4, "/b".data, "d2".data⟩]
    [RpcOutcome.success 1, RpcOutcome.success 2] rfl

/-- C5: for every outcome list with no failure, `extract` returns `Ok` of
the success payloads in input order; in particular the empty list yields
`Ok []` (a success, not the `Empty` error). -/
theorem extract_all_success {T : Type} :
    ∀ rs : List (RpcOutcome T), rs.all RpcOutcome.isSuccess = true →
      extract rs = .ok (rs.filterMap RpcOutcome.getSuccess)
  | [], _ => by simp [extract]
  | x :: rs, h => by
    have hx : x.isSuccess = true :=
      List.all_eq_true.mp h x (List.mem_cons_self x rs)
    have hrs : rs.all RpcOutcome.isSuccess = true :=
      List.all_eq_true.mpr fun y hy =>
        List.all_eq_true.mp h y (List.mem_cons_of_mem x hy)
    cases x with
    | failure d0 => simp [RpcOutcome.isSuccess] at hx
    | success t =>
      have ih := extract_all_success rs hrs
      simp only [extract, RpcOutcome.into_result, ih, List.filterMap_cons,
        RpcOutcome.getSuccess]

/-- Witness for C5 at concrete inputs: the empty list gives `Ok []`, and a
two-success list gives the payloads in order. -/
theorem extract_all_success_witness :
    extract ([] : List (RpcOutcome Nat)) = Except.ok []
    ∧ extract [RpcOutcome.success (1 : Nat), RpcOutcome.success 2]
        = Except.ok [1, 2] :=
  ⟨extract_all_success [] rfl,
   extract_all_success [RpcOutcome.success 1, RpcOutcome.success 2] rfl⟩

/-- C6: for the façade methods that send a request body (`set_light_state`
and `modify_configuration` are the cited instances of the shared pattern),
an encoding failure makes the method return the `Encoding` error and issue
no network request: the recorded request trace is empty. -/
theorem facade_encode_short_circuit {T : Type} (uriOk : Str → Bool)
    (transport : Request → Except HueError Str)
    (decT : Str → Except Str (List (RpcOutcome T)))
    (decL : Str → Except Str (List (RpcOutcome (List (RpcOutcome T)))))
    (b : Bridge) (id : Nat) (e : Str)
    (h1 : uriOk (b.url ++ "lights/".data ++ (toString id).data
      ++ "/state".data) = true)
    (h2 : uriOk (b.url ++ "config".data) = true) :
    Bridge.set_light_state uriOk transport decT decL b id (.error e)
      = some { requests := [], result := .error (.encoding e) } ∧
    Bridge.modify_configuration uriOk transport decT decL b (.error e)
      = some { requests := [], result := .error (.encoding e) } := by
  constructor
  · simp only [Bridge.set_light_state, h1]
    simp
  · simp only [Bridge.modify_configuration, h2]
    simp

/-- Witness for C6 at a concrete input: with an accepting URI parser, a
transport that would answer, and a failing encoder, both methods return the
encoding error with an empty request trace. -/
theorem facade_encode_short_circuit_witness :
    Bridge.set_light_state (fun _ => true)
      (fun _ => Except.ok "[]".data)
      (fun _ => (Except.ok [] : Except Str (List (RpcOutcome Nat))))
      (fun _ => Except.ok []) (Bridge.new "ip".data "user".data) 1
      (.error "enc".data)
      = some { requests := [], result := .error (.encoding "enc".data) } ∧
    Bridge.modify_configuration (fun _ => true)
      (fun _ => Except.ok "[]".data)
      (fun _ => (Except.ok [] : Except Str (List (RpcOutcome Nat))))
      (fun _ => Except.ok []) (Bridge.new "ip".data "user".data)
      (.error "enc".data)
      = some { requests := [], result := .error (.encoding "enc".data) } :=
  facade_encode_short_circuit (fun _ => true) (fun _ => Except.ok "[]".data)
    (fun _ => (Except.ok [] : Except Str (List (RpcOutcome Nat))))
    (fun _ => Except.ok []) (Bridge.new "ip".data "user".data) 1 "enc".data
    rfl rfl

/-- C7 (code behaviour at the failing input): `Bridge::get_light` unwraps
the external URI parse of the formatted request target, so whenever the
parser rejects that string the call takes the panic branch (`none`) instead
of returning a `Transport` error. -/
theorem get_light_panics_on_rejected_uri (uriOk : Str → Bool) (b : Bridge)
    (id : Nat) (h : uriOk (b.get_light_uri id) = false) :
    Bridge.get_light_request uriOk b id = none := by
  simp [Bridge.get_light_request, h]

/-- Witness for C7 at the concrete failing input: a URI parser that (like
hyper's) rejects strings containing a space rejects
`http://a b/api/u/lights/1`, and `get_light` reaches the panic branch. -/
theorem get_light_panics_on_rejected_uri_witness :
    Bridge.get_light_request (fun s => !(s.contains ' '))
      (Bridge.new "a b".data "u".data) 1 = none :=
  get_light_panics_on_rejected_uri (fun s => !(s.contains ' '))
    (Bridge.new "a b".data "u".data) 1 (by decide)

/-- C8: the full request target of a façade call is exactly
`http://{address}/api/{credential}/{path}`; in particular `get_light(id)`
targets `http://{address}/api/{credential}/lights/{id}`. -/
theorem request_target_shape (ip user path : Str) (id : Nat) :
    (Bridge.new ip user).url ++ path
      = "http://".data ++ (ip ++ ("/api/".data ++ (user ++ ('/' :: path)))) ∧
    (Bridge.new ip user).get_light_uri id
      = "http://".data ++ (ip ++ ("/api/".data ++ (user
          ++ ('/' :: ("lights/".data ++ (toString id).data))))) := by
  constructor
  · simp [Bridge.new]
  · simp [Bridge.new, Bridge.get_light_uri]

/-- C9 counterexample: `Bridge::new` performs no validation at all, so
constructing a bridge from empty address and credential strings stores an
endpoint whose recovered address and credential are both empty — the
claimed non-emptiness invariant is not established by the constructor. -/
theorem new_accepts_empty_strings :
    (Bridge.new [] []).get_ip = some []
    ∧ (Bridge.new [] []).get_username = some [] := by
  constructor
  · rfl
  · rfl

/-- C9 amended: the constructor stores exactly the given strings without
validation, so the endpoint strings are non-empty precisely when the caller
passes non-empty inputs; for non-empty `/`-free inputs the stored address
and credential are those inputs and hence non-empty. -/
theorem new_nonempty_iff_inputs_nonempty (ip user : Str)
    (hip : ('/' : Char) ∉ ip) (huser : ('/' : Char) ∉ user)
    (h1 : ip ≠ []) (h2 : user ≠ []) :
    (Bridge.new ip user).get_ip = some ip ∧ ip ≠ [] ∧
    (Bridge.new ip user).get_username = some user ∧ user ≠ [] := by
  refine ⟨?_, h1, ?_, h2⟩
  · simp [Bridge.get_ip, url_split ip user hip huser]
  · simp [Bridge.get_username, url_split ip user hip huser]

/-- Witness for the amended C9 at a concrete input. -/
theorem new_nonempty_iff_inputs_nonempty_witness :
    (Bridge.new "192.168.0.2".data "devuser".data).get_ip
        = some "192.168.0.2".data
    ∧ "192.168.0.2".data ≠ []
    ∧ (Bridge.new "192.168.0.2".data "devuser".data).get_username
        = some "devuser".data
    ∧ "devuser".data ≠ [] :=
  new_nonempty_iff_inputs_nonempty "192.168.0.2".data "devuser".data
    (by decide) (by decide) (by decide) (by decide)

/-- C10: for `/`-free address and credential strings, `get_ip` and
`get_username` recover exactly the strings passed to `Bridge::new` (and the
`unwrap`s inside them succeed). -/
theorem get_ip_username_roundtrip (ip user : Str)
    (hip : ('/' : Char) ∉ ip) (huser : ('/' : Char) ∉ user) :
    (Bridge.new ip user).get_ip = some ip
    ∧ (Bridge.new ip user).get_username = some user := by
  constructor
  · simp [Bridge.get_ip, url_split ip user hip huser]
  · simp [Bridge.get_username, url_split ip user hip huser]

/-- Witness for C10 at a concrete input. -/
theorem get_ip_username_roundtrip_witness :
    (Bridge.new "10.0.0.7".data "hello".data).get_ip = some "10.0.0.7".data
    ∧ (Bridge.new "10.0.0.7".data "hello".data).get_username
        = some "hello".data :=
  get_ip_username_roundtrip "10.0.0.7".data "hello".data
    (by decide) (by decide)

end PhilipsHue
